import Mathlib

/-!
# ComposerApp (src/app.js): the browser front end of the genre MIDI composer

A shallow embedding of the `ComposerApp` class.  The page state the methods read and
write (the fields of the class and the properties of the DOM elements they touch) is one
record, `App`.  Every method is a function from the state before the call to the state
after it together with the list of observable effects, in program order: the `fetch`
requests issued, the `alert` boxes shown and the `console.error` lines written.  The
server's answer to the single `fetch` of an `async` method is an argument (`Reply`), so a
call is modelled from its start to the settlement of its promise, without interleaving
with other handlers.

JavaScript strings are sequences of UTF-16 code units (`JSString`), lone surrogates
included.  The numbers `parseInt` yields are IEEE doubles with an integer value: the digit
string is rounded to the nearest double (ties to even) and overflows to `Infinity`;
`numberToString` is `Number::toString` on them (shortest digits that round back, exponent
form from 1e21).  Where ECMAScript leaves a choice to the engine (digits after the 20th
in `parseInt`, the last digit in `Number::toString`), the exact value and the digits
closest to it are taken, as V8 and SpiderMonkey do.  Server answers are typed as section 6
of the specification gives them.  The content of the genre list container is the text
assigned to its `innerHTML`.
-/

namespace ComposerApp

/-! ## Strings of the language -/

/-- A UTF-16 code unit. -/
abbrev CodeUnit := Fin 65536

/-- A string value: a sequence of UTF-16 code units. -/
abbrev JSString := List CodeUnit

/-- The code units of one Unicode scalar value: itself in the basic plane, a surrogate
pair above it. -/
def charUnits (c : Char) : List CodeUnit :=
  let n := c.toNat
  if n < 0x10000 then [Fin.ofNat n]
  else [Fin.ofNat (0xD800 + (n - 0x10000) / 1024), Fin.ofNat (0xDC00 + (n - 0x10000) % 1024)]

/-- The string value a string literal of the source denotes. -/
def js (s : String) : JSString :=
  s.data.flatMap charUnits

/-- High (leading) surrogates. -/
def isHighSurrogate (u : CodeUnit) : Bool :=
  0xD800 ≤ u.val && u.val ≤ 0xDBFF

/-- Low (trailing) surrogates. -/
def isLowSurrogate (u : CodeUnit) : Bool :=
  0xDC00 ≤ u.val && u.val ≤ 0xDFFF

/-- An element of a string read as UTF-16: a code point, or a surrogate without its
partner. -/
inductive Utf16Item where
  | scalar (cp : Nat)
  | lone (unit : CodeUnit)
  deriving DecidableEq

/-- Reading of code units as UTF-16, with `pending` a high surrogate read just before and
still waiting for its low surrogate. -/
def decodeFrom : Option CodeUnit → List CodeUnit → List Utf16Item
  | none, [] => []
  | some h, [] => [Utf16Item.lone h]
  | none, u :: rest =>
    if isHighSurrogate u then decodeFrom (some u) rest
    else if isLowSurrogate u then Utf16Item.lone u :: decodeFrom none rest
    else Utf16Item.scalar u.val :: decodeFrom none rest
  | some h, u :: rest =>
    if isLowSurrogate u then
      Utf16Item.scalar (0x10000 + (h.val - 0xD800) * 1024 + (u.val - 0xDC00)) ::
        decodeFrom none rest
    else if isHighSurrogate u then Utf16Item.lone h :: decodeFrom (some u) rest
    else Utf16Item.lone h :: Utf16Item.scalar u.val :: decodeFrom none rest

/-- The code points of a string, pairing surrogates. -/
def decodeUtf16 (s : JSString) : List Utf16Item :=
  decodeFrom none s

/-- Whether an item is a code point, not a lone surrogate. -/
def Utf16Item.isScalar : Utf16Item → Bool
  | Utf16Item.scalar _ => true
  | Utf16Item.lone _ => false

/-- Whether a string is well-formed UTF-16: it has no lone surrogate. -/
def isWellFormed (s : JSString) : Bool :=
  (decodeUtf16 s).all Utf16Item.isScalar

/-- White space and line terminators of ECMAScript: what `String.prototype.trim` strips
and `parseInt` skips. -/
def isJSWhitespace (u : CodeUnit) : Bool :=
  let n := u.val
  n == 0x09 || n == 0x0A || n == 0x0B || n == 0x0C || n == 0x0D || n == 0x20 ||
  n == 0xA0 || n == 0x1680 || (0x2000 ≤ n && n ≤ 0x200A) || n == 0x2028 || n == 0x2029 ||
  n == 0x202F || n == 0x205F || n == 0x3000 || n == 0xFEFF

/-- The method `String.prototype.trim`: leading and trailing white space removed. -/
def jsTrim (s : JSString) : JSString :=
  ((s.dropWhile isJSWhitespace).reverse.dropWhile isJSWhitespace).reverse

/-- Truthiness of a string value: only the empty string is falsy. -/
def truthy (s : JSString) : Bool :=
  !s.isEmpty

/-- The expression `a || b` on strings. -/
def jsOr (a b : JSString) : JSString :=
  if truthy a then a else b

/-! ## Numbers of the language -/

/-- A number as `parseInt` produces it: `NaN`, an infinity, or a finite double with an
integer value, given by sign and magnitude (`finite true 0` is the negative zero). -/
inductive JSNumber where
  | nan
  | infinity (negative : Bool)
  | finite (negative : Bool) (magnitude : Nat)
  deriving DecidableEq

/-- The number of binary digits of a positive natural number. -/
def bitLength (n : Nat) : Nat :=
  (Nat.toDigits 2 n).length

/-- The number of decimal digits of a positive natural number. -/
def decimalLength (n : Nat) : Nat :=
  (Nat.toDigits 10 n).length

/-- The double nearest to a natural number: the number itself up to 53 bits, otherwise
rounded to 53 significant bits with ties to the even significand; `none` when the result
is beyond the largest double, that is 2^1024 or more (the number becomes `Infinity`). -/
def roundToDouble (n : Nat) : Option Nat :=
  if bitLength n ≤ 53 then some n
  else
    let unit := 2 ^ (bitLength n - 53)
    let q := n / unit
    let r := n % unit
    let q1 := if 2 * r > unit ∨ (2 * r = unit ∧ q % 2 = 1) then q + 1 else q
    if bitLength (q1 * unit) > 1024 then none else some (q1 * unit)

/-- The value of a code unit as a digit in a radix up to 16, if it is one. -/
def digitValue (u : CodeUnit) : Option Nat :=
  let n := u.val
  if 48 ≤ n ∧ n ≤ 57 then some (n - 48)
  else if 97 ≤ n ∧ n ≤ 102 then some (n - 87)
  else if 65 ≤ n ∧ n ≤ 70 then some (n - 55)
  else none

/-- The digits of the longest leading run of radix-`r` digits. -/
def takeDigits (r : Nat) : List CodeUnit → List Nat
  | [] => []
  | u :: rest =>
    match digitValue u with
    | some d => if d < r then d :: takeDigits r rest else []
    | none => []

/-- The integer a digit list denotes in radix `r`. -/
def digitsValue (r : Nat) (ds : List Nat) : Nat :=
  ds.foldl (fun acc d => acc * r + d) 0

/-- The input of `parseInt` after its sign: the rest when it starts with `+` or `-`. -/
def dropSign (s : List CodeUnit) : List CodeUnit :=
  match s with
  | [] => []
  | u :: rest => if u.val = 43 ∨ u.val = 45 then rest else u :: rest

/-- The radix and the digits part: radix 16 after a leading `0x` or `0X`, else radix 10. -/
def splitRadix (s : List CodeUnit) : Nat × List CodeUnit :=
  match s with
  | u :: v :: rest => if u.val = 48 ∧ (v.val = 120 ∨ v.val = 88) then (16, rest) else (10, s)
  | _ => (10, s)

/-- The global `parseInt(string)` called without a radix: skip leading white space, read
an optional sign, switch to radix 16 after `0x` or `0X`, read the longest run of digits;
`NaN` when that run is empty, otherwise the signed value as a double. -/
def parseInt (s : JSString) : JSNumber :=
  let s0 := s.dropWhile isJSWhitespace
  let negative := s0.head?.map Fin.val == some 45
  let rs := splitRadix (dropSign s0)
  match takeDigits rs.1 rs.2 with
  | [] => JSNumber.nan
  | d :: ds =>
    match roundToDouble (digitsValue rs.1 (d :: ds)) with
    | some m => JSNumber.finite negative m
    | none => JSNumber.infinity negative

/-- The shortest decimal that reads back as the double `x`: for 1 to 17 significant
digits in turn, the multiples of the matching power of ten just below and just above `x`
are tried, and of two that fit the closer one is taken. -/
def shortestFrom (x : Nat) : List Nat → Nat
  | [] => x
  | k :: ks =>
    let scale := 10 ^ (decimalLength x - k)
    let low := x / scale * scale
    let high := low + scale
    let okLow := roundToDouble low == some x
    let okHigh := roundToDouble high == some x
    if okLow && okHigh then (if x - low ≤ high - x then low else high)
    else if okLow then low
    else if okHigh then high
    else shortestFrom x ks

/-- The decimal `Number::toString` prints for the positive double `x`. -/
def shortestDecimal (x : Nat) : Nat :=
  shortestFrom x (List.range' 1 17)

/-- A list of decimal digit characters without its trailing zeros. -/
def dropTrailingZeros (ds : List Char) : List Char :=
  (ds.reverse.dropWhile (fun c => c == '0')).reverse

/-- The text of `Number::toString` for a positive integer `y` that is already the
shortest decimal: plain digits up to 21 digits, otherwise exponent form. -/
def formatDecimal (y : Nat) : String :=
  let ds := Nat.toDigits 10 y
  if ds.length ≤ 21 then String.mk ds
  else
    match dropTrailingZeros ds with
    | [] => String.mk ds
    | [d] => String.mk [d] ++ "e+" ++ Nat.repr (ds.length - 1)
    | d :: more => String.mk (d :: '.' :: more) ++ "e+" ++ Nat.repr (ds.length - 1)

/-- The conversion of a number to a string (`String(n)`, as template literals,
`URLSearchParams` and `JSON.stringify` apply it). -/
def numberToString : JSNumber → JSString
  | JSNumber.nan => js "NaN"
  | JSNumber.infinity negative => if negative then js "-Infinity" else js "Infinity"
  | JSNumber.finite negative m =>
    if m = 0 then js "0"
    else (if negative then js "-" else []) ++ js (formatDecimal (shortestDecimal m))

/-- The conversion of a boolean to a string. -/
def boolToString (b : Bool) : JSString :=
  if b then js "true" else js "false"

/-! ## Encoding functions of the language and the browser -/

/-- The code units of a code point: itself in the basic plane, a surrogate pair above. -/
def codePointUnits (n : Nat) : List CodeUnit :=
  if n < 0x10000 then [Fin.ofNat n]
  else [Fin.ofNat (0xD800 + (n - 0x10000) / 1024), Fin.ofNat (0xDC00 + (n - 0x10000) % 1024)]

/-- The UTF-8 bytes of a code point. -/
def utf8Bytes (n : Nat) : List Nat :=
  if n < 0x80 then [n]
  else if n < 0x800 then [0xC0 + n / 64, 0x80 + n % 64]
  else if n < 0x10000 then [0xE0 + n / 4096, 0x80 + n / 64 % 64, 0x80 + n % 64]
  else [0xF0 + n / 262144, 0x80 + n / 4096 % 64, 0x80 + n / 64 % 64, 0x80 + n % 64]

/-- An upper-case hexadecimal digit. -/
def hexDigitUpper (d : Nat) : CodeUnit :=
  if d < 10 then Fin.ofNat (48 + d) else Fin.ofNat (55 + d)

/-- A lower-case hexadecimal digit. -/
def hexDigitLower (d : Nat) : CodeUnit :=
  if d < 10 then Fin.ofNat (48 + d) else Fin.ofNat (87 + d)

/-- The percent-encoding of one byte: `%` and two upper-case hexadecimal digits. -/
def percentByte (b : Nat) : List CodeUnit :=
  [37, hexDigitUpper (b / 16), hexDigitUpper (b % 16)]

/-- ASCII letters and digits. -/
def isAsciiAlnum (n : Nat) : Bool :=
  (48 ≤ n && n ≤ 57) || (65 ≤ n && n ≤ 90) || (97 ≤ n && n ≤ 122)

/-- The characters `encodeURIComponent` leaves as they are: letters, digits and
`- _ . ! ~ * ' ( )`. -/
def isUriUnreserved (n : Nat) : Bool :=
  isAsciiAlnum n || n == 45 || n == 95 || n == 46 || n == 33 || n == 126 || n == 42 ||
  n == 39 || n == 40 || n == 41

/-- The encoding of one item by `encodeURIComponent` (a lone surrogate has none). -/
def uriEncodeItem : Utf16Item → List CodeUnit
  | Utf16Item.scalar cp =>
    if isUriUnreserved cp then [Fin.ofNat cp] else (utf8Bytes cp).flatMap percentByte
  | Utf16Item.lone _ => []

/-- The global `encodeURIComponent`: `none` when it throws `URIError`, which it does on a
string with a lone surrogate. -/
def encodeURIComponent (s : JSString) : Option JSString :=
  if isWellFormed s then some ((decodeUtf16 s).flatMap uriEncodeItem) else none

/-- The code point of an item in the conversion to a scalar value string: a lone
surrogate becomes U+FFFD. -/
def Utf16Item.toScalar : Utf16Item → Nat
  | Utf16Item.scalar cp => cp
  | Utf16Item.lone _ => 0xFFFD

/-- The byte serializer of `application/x-www-form-urlencoded` applied to a name or value
of a `URLSearchParams` object: letters, digits and `* - . _` stay, a space becomes `+`,
every other byte of the UTF-8 form is percent-encoded. -/
def formEncodeString (s : JSString) : JSString :=
  (decodeUtf16 s).flatMap fun item =>
    let n := item.toScalar
    if isAsciiAlnum n || n == 42 || n == 45 || n == 46 || n == 95 then [Fin.ofNat n]
    else if n == 32 then [43]
    else (utf8Bytes n).flatMap percentByte

/-- The pairs `name=value` of a serialized query joined by `&`. -/
def joinPairs : List JSString → JSString
  | [] => []
  | [p] => p
  | p :: q :: rest => p ++ js "&" ++ joinPairs (q :: rest)

/-- The string a `URLSearchParams` object with the given name-value list serializes to. -/
def urlSearchParamsToString (params : List (JSString × JSString)) : JSString :=
  joinPairs (params.map fun p => formEncodeString p.1 ++ js "=" ++ formEncodeString p.2)

/-- The escape of one item inside a JSON string literal. -/
def jsonEscapeItem : Utf16Item → List CodeUnit
  | Utf16Item.scalar n =>
    if n == 8 then js "\\b"
    else if n == 9 then js "\\t"
    else if n == 10 then js "\\n"
    else if n == 12 then js "\\f"
    else if n == 13 then js "\\r"
    else if n == 34 then js "\\\""
    else if n == 92 then js "\\\\"
    else if n < 32 then js "\\u00" ++ [hexDigitLower (n / 16), hexDigitLower (n % 16)]
    else codePointUnits n
  | Utf16Item.lone u =>
    js "\\u" ++ [hexDigitLower (u.val / 4096), hexDigitLower (u.val / 256 % 16),
      hexDigitLower (u.val / 16 % 16), hexDigitLower (u.val % 16)]

/-- The JSON string literal for a string, as `JSON.stringify` writes it. -/
def quoteJSONString (s : JSString) : JSString :=
  js "\"" ++ (decodeUtf16 s).flatMap jsonEscapeItem ++ js "\""

/-- A value of a JSON document, as far as the request bodies of the app need them: `null`,
a finite number given by sign and magnitude, or a string. -/
inductive JsonValue where
  | null
  | num (negative : Bool) (magnitude : Nat)
  | str (s : JSString)
  deriving DecidableEq

/-- The JSON value `JSON.stringify` writes for a number: a number that is not finite
(`NaN`, `Infinity`, `-Infinity`) is written as `null`. -/
def jsonOfNumber : JSNumber → JsonValue
  | JSNumber.nan => JsonValue.null
  | JSNumber.infinity _ => JsonValue.null
  | JSNumber.finite negative m => JsonValue.num negative m

/-- The text of a JSON value. -/
def JsonValue.render : JsonValue → JSString
  | JsonValue.null => js "null"
  | JsonValue.num negative m => numberToString (JSNumber.finite negative m)
  | JsonValue.str s => quoteJSONString s

/-- The members `"name":value` of an object joined by commas. -/
def joinMembers : List JSString → JSString
  | [] => []
  | [m] => m
  | m :: n :: rest => m ++ js "," ++ joinMembers (n :: rest)

/-- The text `JSON.stringify` produces for an object with the given members, in order. -/
def renderJsonObject (members : List (JSString × JsonValue)) : JSString :=
  js "\x7b" ++ joinMembers (members.map fun m => quoteJSONString m.1 ++ js ":" ++ m.2.render)
    ++ js "\x7d"

/-! ## Requests, replies and effects -/

/-- A request handed to `fetch`: method (`GET` unless given), URL, headers and body. -/
structure Request where
  method : JSString
  url : JSString
  headers : List (JSString × JSString)
  body : Option JSString
  deriving DecidableEq

/-- The settlement of `await fetch(...)` followed by `await response.json()`: either the
decoded JSON value, or an exception caught by the method's `catch` (network failure, a
body that is not JSON) with the message of the error thrown. -/
inductive Reply (α : Type) where
  | json (result : α)
  | error (message : JSString)
  deriving DecidableEq

/-- The answer of `/api/generate`: `{success, filename}`. -/
structure GenerateResult where
  success : Bool
  filename : JSString
  deriving DecidableEq

/-- The answer of `/api/model-status`: `{exists, model}`. -/
structure ModelStatus where
  «exists» : Bool
  model : JSString
  deriving DecidableEq

/-- The answer of `/api/train-neural`: `{success, model}` or `{success, error}`; `error`
is `none` when the key is absent. -/
structure TrainResult where
  success : Bool
  model : JSString
  error : Option JSString
  deriving DecidableEq

/-- The error object a `catch` block receives: a failed request or decoding with its
message, or the `URIError` of `encodeURIComponent`. -/
inductive Thrown where
  | failure (message : JSString)
  | uriError
  deriving DecidableEq

/-- An observable effect of a method call. -/
inductive Effect where
  | fetch (req : Request)
  | alert (message : JSString)
  | consoleError (label : JSString) (error : Thrown)
  deriving DecidableEq

/-- The requests among a list of effects, in order. -/
def requests : List Effect → List Request
  | [] => []
  | Effect.fetch req :: rest => req :: requests rest
  | _ :: rest => requests rest

/-- The alert messages among a list of effects, in order. -/
def alerts : List Effect → List JSString
  | [] => []
  | Effect.alert message :: rest => message :: alerts rest
  | _ :: rest => alerts rest

/-! ## Page state -/

/-- The fields of `ComposerApp` and the element properties its methods read or write.
`categories` holds the entries of the categories object in `Object.entries` order;
`selectedGenre = none` is `null`; `genreListHTML` is the text last assigned to the
`innerHTML` of the `genreList` container. -/
structure App where
  genres : List JSString
  categories : List (JSString × List JSString)
  selectedGenre : Option JSString
  currentCategory : JSString
  searchInput : JSString
  genreListHTML : JSString
  barsInput : JSString
  seedInput : JSString
  useNeuralChecked : Bool
  useNeuralDisabled : Bool
  generateBtnDisabled : Bool
  progressDisplay : JSString
  downloadDisplay : JSString
  downloadHref : JSString
  downloadDownload : JSString
  modelStatusDisplay : JSString
  modelStatusText : JSString
  trainingDirInput : JSString
  epochsInput : JSString
  modelNameInput : JSString
  trainBtnDisabled : Bool
  trainingProgressDisplay : JSString
  deriving DecidableEq

/-! ## The methods of `ComposerApp` -/

/-- The method `showError(message)` (lines 343-345): an alert box with the message after
a cross mark. -/
def showError (message : JSString) : Effect :=
  Effect.alert (js "❌ " ++ message)

/-- The method `showSuccess(message)` (lines 347-349): an alert box with the message. -/
def showSuccess (message : JSString) : Effect :=
  Effect.alert message

/-- The loop of `getCategoryForGenre` over the entries of the categories object: the name
of the first entry whose array includes the genre, `'Unknown'` when the loop ends. -/
def categoryOf (entries : List (JSString × List JSString)) (genreId : JSString) : JSString :=
  match entries with
  | [] => js "Unknown"
  | (category, genres) :: rest =>
    if genres.contains genreId then category else categoryOf rest genreId

/-- The method `getCategoryForGenre(genreId)` (app.js lines 89-96). -/
def getCategoryForGenre (app : App) (genreId : JSString) : JSString :=
  categoryOf app.categories genreId

/-- The template literal `renderGenres` evaluates for one genre id (lines 74-80): a
`genre-item` block, with the class `active` when the id is the selected genre, holding the
id and its category. -/
def genreItemMarkup (app : App) (genreId : JSString) : JSString :=
  let isActive := if app.selectedGenre = some genreId then js "active" else js ""
  js "\n                <div class=\"genre-item " ++ isActive ++ js "\" data-genre=\"" ++
    genreId ++ js "\">\n                    <div class=\"genre-item-name\">" ++ genreId ++
    js "</div>\n                    <div class=\"genre-item-category\">" ++
    getCategoryForGenre app genreId ++
    js "</div>\n                </div>\n            "

/-- The text `renderGenres(genreList)` assigns to the container's `innerHTML`: the
placeholder for an empty list, otherwise the item blocks of the ids, in order, joined
without a separator. -/
def genreListMarkup (app : App) (genreList : List JSString) : JSString :=
  if genreList.length == 0 then
    js "<div class=\"loading\">No se encontraron géneros</div>"
  else
    (genreList.map (genreItemMarkup app)).flatten

/-- The method `renderGenres(genreList)` (lines 65-87): the assignment to `innerHTML`.
The click listeners it then attaches to the parsed items are not part of the state. -/
def renderGenres (app : App) (genreList : List JSString) : App :=
  { app with genreListHTML := genreListMarkup app genreList }

/-- The method `search()` (lines 194-209); `reply` is the settlement of the `/api/search`
request, used only when the request is made. -/
def search (app : App) (reply : Reply (List JSString)) : App × List Effect :=
  let query := jsTrim app.searchInput
  if !truthy query then
    (renderGenres app app.genres, [])
  else
    match encodeURIComponent query with
    | none => (app, [Effect.consoleError (js "Error searching:") Thrown.uriError])
    | some encoded =>
      let req : Request :=
        { method := js "GET", url := js "/api/search?q=" ++ encoded,
          headers := [], body := none }
      match reply with
      | Reply.json results => (renderGenres app results, [Effect.fetch req])
      | Reply.error message =>
        (app, [Effect.fetch req,
               Effect.consoleError (js "Error searching:") (Thrown.failure message)])

/-- Truthiness of `this.selectedGenre`: `null` and the empty string are falsy. -/
def selectedTruthy : Option JSString → Bool
  | none => false
  | some genreId => truthy genreId

/-- The string `URLSearchParams` stores for `this.selectedGenre`. -/
def selectedToString : Option JSString → JSString
  | none => js "null"
  | some genreId => genreId

/-- The method `generate()` (lines 211-260); `reply` is the settlement of the
`/api/generate` request, used only when the request is made. -/
def generate (app : App) (reply : Reply GenerateResult) : App × List Effect :=
  if !selectedTruthy app.selectedGenre then
    (app, [showError (js "Por favor selecciona un género")])
  else
    let bars := parseInt app.barsInput
    let seed : Option JSString := if truthy app.seedInput then some app.seedInput else none
    let useNeural := app.useNeuralChecked
    -- Show progress
    let app1 := { app with
      generateBtnDisabled := true, progressDisplay := js "block",
      downloadDisplay := js "none" }
    let params : List (JSString × JSString) :=
      [(js "genre", selectedToString app.selectedGenre), (js "bars", numberToString bars),
       (js "neural", boolToString useNeural)] ++
      (match seed with
       | some s => [(js "seed", s)]
       | none => [])
    let req : Request :=
      { method := js "GET", url := js "/api/generate?" ++ urlSearchParamsToString params,
        headers := [], body := none }
    let tried : App × List Effect :=
      match reply with
      | Reply.json result =>
        if result.success then
          let neuralNote := if useNeural then js " (con Red Neuronal)" else js ""
          ({ app1 with
              downloadHref := js "/output/" ++ result.filename,
              downloadDownload := result.filename,
              downloadDisplay := js "block" },
           [Effect.fetch req,
            showSuccess (js "✓ MIDI generado: " ++ result.filename ++ neuralNote)])
        else
          (app1, [Effect.fetch req, showError (js "Error al generar MIDI")])
      | Reply.error message =>
        (app1, [Effect.fetch req,
                Effect.consoleError (js "Error generating MIDI:") (Thrown.failure message),
                showError (js "Error al generar MIDI: " ++ message)])
    -- finally
    ({ tried.1 with generateBtnDisabled := false, progressDisplay := js "none" }, tried.2)

/-- The method `checkModelStatus()` (lines 262-282); `reply` is the settlement of the
`/api/model-status` request. -/
def checkModelStatus (app : App) (reply : Reply ModelStatus) : App × List Effect :=
  let req : Request :=
    { method := js "GET", url := js "/api/model-status", headers := [], body := none }
  match reply with
  | Reply.json result =>
    if result.«exists» then
      ({ app with
          modelStatusDisplay := js "block",
          modelStatusText := js "✓ Modelo disponible: " ++ result.model,
          useNeuralDisabled := false },
       [Effect.fetch req])
    else
      ({ app with useNeuralDisabled := true }, [Effect.fetch req])
  | Reply.error message =>
    ({ app with useNeuralDisabled := true },
     [Effect.fetch req,
      Effect.consoleError (js "Error checking model status:") (Thrown.failure message)])

/-- The method `trainNeural()` (lines 284-341); `reply` is the settlement of the
`/api/train-neural` request, used only when the request is made. -/
def trainNeural (app : App) (reply : Reply TrainResult) : App × List Effect :=
  let trainingDir := jsOr app.trainingDirInput (js "training_data")
  let epochs := parseInt app.epochsInput
  let modelName := jsOr app.modelNameInput (js "composer_model")
  -- Validate
  if !truthy trainingDir then
    (app, [showError (js "Por favor especifica un directorio de entrenamiento")])
  else
    -- Show progress
    let app1 := { app with
      trainBtnDisabled := true, trainingProgressDisplay := js "block",
      modelStatusDisplay := js "none" }
    let req : Request :=
      { method := js "POST", url := js "/api/train-neural",
        headers := [(js "Content-Type", js "application/json")],
        body := some (renderJsonObject
          [(js "directory", JsonValue.str trainingDir), (js "epochs", jsonOfNumber epochs),
           (js "model_name", JsonValue.str modelName)]) }
    let tried : App × List Effect :=
      match reply with
      | Reply.json result =>
        if result.success then
          ({ app1 with
              modelStatusText := js "✓ Modelo disponible: " ++ result.model,
              modelStatusDisplay := js "block",
              useNeuralDisabled := false,
              useNeuralChecked := true },
           [Effect.fetch req, showSuccess (js "✓ Modelo entrenado: " ++ result.model)])
        else
          let errorMsg :=
            match result.error with
            | some e => jsOr e (js "Error al entrenar el modelo")
            | none => js "Error al entrenar el modelo"
          (app1, [Effect.fetch req, showError errorMsg])
      | Reply.error message =>
        (app1, [Effect.fetch req,
                Effect.consoleError (js "Error training neural model:")
                  (Thrown.failure message),
                showError (js "Error al entrenar: " ++ message)])
    -- finally
    ({ tried.1 with trainBtnDisabled := false, trainingProgressDisplay := js "none" },
     tried.2)

/-! ## Sample states -/

/-- A page state after loading: two categories, the genre `rock` selected, eight bars, no
seed, every container hidden. -/
def sampleApp : App :=
  { genres := [js "rock", js "bebop"]
    categories := [(js "Rock", [js "rock"]), (js "Jazz", [js "bebop"])]
    selectedGenre := some (js "rock")
    currentCategory := js "all"
    searchInput := js ""
    genreListHTML := js ""
    barsInput := js "8"
    seedInput := js ""
    useNeuralChecked := false
    useNeuralDisabled := true
    generateBtnDisabled := false
    progressDisplay := js "none"
    downloadDisplay := js "none"
    downloadHref := js ""
    downloadDownload := js ""
    modelStatusDisplay := js "none"
    modelStatusText := js ""
    trainingDirInput := js ""
    epochsInput := js "10"
    modelNameInput := js ""
    trainBtnDisabled := false
    trainingProgressDisplay := js "none" }

/-- A number that is zero, negative or minus infinity. -/
def JSNumber.nonPositive : JSNumber → Bool
  | JSNumber.nan => false
  | JSNumber.infinity negative => negative
  | JSNumber.finite negative m => negative || m == 0

/-- The search inputs the claims call blank: empty or white space only. -/
def isBlank (s : JSString) : Bool :=
  s.all isJSWhitespace

/-! ## Auxiliary facts -/

theorem js_empty : js "" = [] := rfl

theorem truthy_js_empty : truthy (js "") = false := rfl

theorem truthy_eq_true_iff (s : JSString) : truthy s = true ↔ s ≠ js "" := by
  cases s <;> simp [truthy, js_empty]

theorem truthy_eq_false_iff (s : JSString) : truthy s = false ↔ s = js "" := by
  cases s <;> simp [truthy, js_empty]

theorem jsOr_eq (a b : JSString) : jsOr a b = if a = js "" then b else a := by
  by_cases h : a = js ""
  · subst h
    simp [jsOr, truthy_js_empty]
  · simp [jsOr, (truthy_eq_true_iff a).mpr h, h]

theorem none_ne_block : js "none" ≠ js "block" := by decide

theorem all_of_dropWhile_all (p : CodeUnit → Bool) (cs : List CodeUnit)
    (h : ∀ c ∈ cs.dropWhile p, p c = true) : ∀ c ∈ cs, p c = true := by
  induction cs with
  | nil => simp
  | cons a as ih =>
    by_cases ha : p a = true
    · simp only [List.dropWhile_cons, ha, if_true] at h
      intro c hc
      rcases List.mem_cons.mp hc with rfl | hc
      · exact ha
      · exact ih h c hc
    · have hd : (a :: as).dropWhile p = a :: as := by simp [List.dropWhile_cons, ha]
      rw [hd] at h
      exact h

theorem jsTrim_eq_empty_iff (s : JSString) :
    jsTrim s = js "" ↔ ∀ c ∈ s, isJSWhitespace c = true := by
  unfold jsTrim
  rw [js_empty, List.reverse_eq_nil_iff, List.dropWhile_eq_nil_iff]
  constructor
  · intro h
    apply all_of_dropWhile_all
    intro c hc
    exact h c (List.mem_reverse.mpr hc)
  · intro h c hc
    exact h c ((List.dropWhile_sublist _).subset (List.mem_reverse.mp hc))

theorem jsTrim_eq_empty_iff_isBlank (s : JSString) :
    jsTrim s = js "" ↔ isBlank s = true := by
  rw [jsTrim_eq_empty_iff, isBlank, List.all_eq_true]

theorem categoryOf_skip (pre rest : List (JSString × List JSString)) (g : JSString)
    (h : ∀ e ∈ pre, g ∉ e.2) : categoryOf (pre ++ rest) g = categoryOf rest g := by
  induction pre with
  | nil => rfl
  | cons e es ih =>
    obtain ⟨c, gs⟩ := e
    have hg : g ∉ gs := h (c, gs) (List.mem_cons_self _ _)
    have hes : ∀ e ∈ es, g ∉ e.2 := fun e he => h e (List.mem_cons_of_mem _ he)
    simp [categoryOf, hg, ih hes]

theorem categoryOf_absent (entries : List (JSString × List JSString)) (g : JSString)
    (h : ∀ e ∈ entries, g ∉ e.2) : categoryOf entries g = js "Unknown" := by
  have := categoryOf_skip entries [] g h
  simpa [categoryOf] using this

theorem categoryOf_hit (category : JSString) (genres : List JSString)
    (post : List (JSString × List JSString)) (g : JSString) (h : g ∈ genres) :
    categoryOf ((category, genres) :: post) g = category := by
  simp [categoryOf, h]

theorem categories_split (entries : List (JSString × List JSString)) (g : JSString) :
    (∀ e ∈ entries, g ∉ e.2) ∨
    ∃ pre category genres post, entries = pre ++ (category, genres) :: post ∧
      (∀ e ∈ pre, g ∉ e.2) ∧ g ∈ genres := by
  induction entries with
  | nil => left; simp
  | cons e es ih =>
    obtain ⟨c, gs⟩ := e
    by_cases hg : g ∈ gs
    · right
      exact ⟨[], c, gs, es, rfl, by simp, hg⟩
    · rcases ih with hall | ⟨pre, c2, gs2, post, heq, hpre, hin⟩
      · left
        intro e he
        rcases List.mem_cons.mp he with rfl | he
        · exact hg
        · exact hall e he
      · right
        refine ⟨(c, gs) :: pre, c2, gs2, post, by simp [heq], ?_, hin⟩
        intro e he
        rcases List.mem_cons.mp he with rfl | he
        · exact hg
        · exact hpre e he

/-! ## C6: `getCategoryForGenre` -/

/-- C6 (as amended): for every categories mapping and genre id `g`,
`getCategoryForGenre(g)` returns the first category, in entry order, whose array contains
`g`; it returns `'Unknown'` when no category's array contains `g`; and when it returns
`'Unknown'`, either no category's array contains `g` or the first category containing `g`
is itself named `'Unknown'`. -/
theorem getCategoryForGenre_first_match (app : App) (g : JSString) :
    (∀ pre category genres post,
        app.categories = pre ++ (category, genres) :: post →
        (∀ e ∈ pre, g ∉ e.2) → g ∈ genres →
        getCategoryForGenre app g = category) ∧
    ((∀ e ∈ app.categories, g ∉ e.2) → getCategoryForGenre app g = js "Unknown") ∧
    (getCategoryForGenre app g = js "Unknown" →
        (∀ e ∈ app.categories, g ∉ e.2) ∨
        ∃ pre genres post, app.categories = pre ++ (js "Unknown", genres) :: post ∧
          (∀ e ∈ pre, g ∉ e.2) ∧ g ∈ genres) := by
  refine ⟨?_, ?_, ?_⟩
  · intro pre category genres post heq hpre hin
    unfold getCategoryForGenre
    rw [heq, categoryOf_skip pre _ g hpre, categoryOf_hit category genres post g hin]
  · intro h
    exact categoryOf_absent app.categories g h
  · intro hres
    rcases categories_split app.categories g with hall | ⟨pre, c, gs, post, heq, hpre, hin⟩
    · exact Or.inl hall
    · right
      unfold getCategoryForGenre at hres
      rw [heq, categoryOf_skip pre _ g hpre, categoryOf_hit c gs post g hin] at hres
      subst hres
      exact ⟨pre, gs, post, heq, hpre, hin⟩

/-- C6, an instance: with the entries `Rock: [metal]`, `Jazz: [bebop, metal]`, the genre
`metal` is reported under `Rock`, the first of the two categories that list it. -/
theorem getCategoryForGenre_first_match_witness :
    getCategoryForGenre
      { sampleApp with
        categories := [(js "Rock", [js "metal"]), (js "Jazz", [js "bebop", js "metal"])] }
      (js "metal") = js "Rock" :=
  (getCategoryForGenre_first_match
    { sampleApp with
      categories := [(js "Rock", [js "metal"]), (js "Jazz", [js "bebop", js "metal"])] }
    (js "metal")).1 [] (js "Rock") [js "metal"] [(js "Jazz", [js "bebop", js "metal"])]
    rfl (by simp) (by simp)

/-- C6 as stated fails: when the categories object is `Unknown: [rock]`, the call
`getCategoryForGenre('rock')` returns `'Unknown'` although a category's array contains
`rock`, so "returns 'Unknown' if and only if no array contains g" does not hold. -/
theorem getCategoryForGenre_unknown_category :
    ¬ (getCategoryForGenre
          { sampleApp with categories := [(js "Unknown", [js "rock"])] } (js "rock")
          = js "Unknown" ↔
        ∀ e ∈ ({ sampleApp with categories := [(js "Unknown", [js "rock"])] } : App).categories,
          js "rock" ∉ e.2) := by
  intro h
  have hres : getCategoryForGenre
      { sampleApp with categories := [(js "Unknown", [js "rock"])] } (js "rock")
        = js "Unknown" := by
    decide
  exact h.mp hres (js "Unknown", [js "rock"]) (by simp) (by simp)

/-! ## C8, C1, C2, C9: `generate` -/

theorem generate_of_falsy (app : App) (reply : Reply GenerateResult)
    (h : selectedTruthy app.selectedGenre = false) :
    generate app reply = (app, [showError (js "Por favor selecciona un género")]) := by
  simp [generate, h]

theorem generate_effects (app : App) (reply : Reply GenerateResult) (g : JSString)
    (hsel : app.selectedGenre = some g) (hg : g ≠ js "") :
    requests (generate app reply).2 =
      [{ method := js "GET",
         url := js "/api/generate?" ++ urlSearchParamsToString
           ([(js "genre", g), (js "bars", numberToString (parseInt app.barsInput)),
             (js "neural", boolToString app.useNeuralChecked)] ++
            if app.seedInput = js "" then [] else [(js "seed", app.seedInput)]),
         headers := [], body := none }] := by
  have hgt : truthy g = true := (truthy_eq_true_iff g).mpr hg
  by_cases hs : app.seedInput = js ""
  · have hst : truthy app.seedInput = false := (truthy_eq_false_iff _).mpr hs
    cases reply with
    | json result =>
      cases hr : result.success <;>
        simp [generate, hsel, selectedTruthy, selectedToString, hgt, hst, hs, hr, requests,
          showError, showSuccess, truthy_js_empty]
    | error message =>
      simp [generate, hsel, selectedTruthy, selectedToString, hgt, hst, hs, requests,
        showError, truthy_js_empty]
  · have hst : truthy app.seedInput = true := (truthy_eq_true_iff _).mpr hs
    cases reply with
    | json result =>
      cases hr : result.success <;>
        simp [generate, hsel, selectedTruthy, selectedToString, hgt, hst, hs, hr, requests,
          showError, showSuccess, truthy_js_empty]
    | error message =>
      simp [generate, hsel, selectedTruthy, selectedToString, hgt, hst, hs, requests,
        showError, truthy_js_empty]

/-- C8: when `selectedGenre` is `null`, `generate` shows the error
'Por favor selecciona un género' and returns with the state unchanged: the alert is its
only effect, no request is issued, and the generate button's disabled flag, the progress
container and the download container are as they were. -/
theorem generate_without_genre (app : App) (reply : Reply GenerateResult)
    (h : app.selectedGenre = none) :
    generate app reply = (app, [Effect.alert (js "❌ Por favor selecciona un género")]) ∧
    requests (generate app reply).2 = [] ∧
    (generate app reply).1.generateBtnDisabled = app.generateBtnDisabled ∧
    (generate app reply).1.progressDisplay = app.progressDisplay ∧
    (generate app reply).1.downloadDisplay = app.downloadDisplay := by
  have hf : selectedTruthy app.selectedGenre = false := by simp [h, selectedTruthy]
  have hgen := generate_of_falsy app reply hf
  have hmsg : showError (js "Por favor selecciona un género") =
      Effect.alert (js "❌ Por favor selecciona un género") := by decide
  rw [hgen, hmsg]
  simp [requests]

/-- C8, an instance: the sample page with no genre selected, whatever the server would
have answered. -/
theorem generate_without_genre_witness :
    generate { sampleApp with selectedGenre := none }
        (Reply.json { success := true, filename := js "rock.mid" }) =
      ({ sampleApp with selectedGenre := none },
       [Effect.alert (js "❌ Por favor selecciona un género")]) :=
  (generate_without_genre { sampleApp with selectedGenre := none }
    (Reply.json { success := true, filename := js "rock.mid" }) rfl).1

set_option maxRecDepth 4000

/-- C1 (as amended): for every non-empty selected genre `g`, bars input text `b`, neural
checkbox state `n` and seed input text `s`, the single request `generate` issues is a GET
to `/api/generate` whose query is the `URLSearchParams` serialization (UTF-8
percent-encoding, a lone surrogate replaced by U+FFFD) of genre = `g`, bars =
`String(parseInt(b))`, neural = `n`, followed by seed = `s` exactly when `s` is
non-empty, and of no other parameter. -/
theorem generate_request_query (app : App) (reply : Reply GenerateResult)
    (g b s : JSString) (n : Bool)
    (hg : app.selectedGenre = some g) (hne : g ≠ js "") (hb : app.barsInput = b)
    (hn : app.useNeuralChecked = n) (hs : app.seedInput = s) :
    requests (generate app reply).2 =
      [{ method := js "GET",
         url := js "/api/generate?" ++ urlSearchParamsToString
           ([(js "genre", g), (js "bars", numberToString (parseInt b)),
             (js "neural", boolToString n)] ++
            if s = js "" then [] else [(js "seed", s)]),
         headers := [], body := none }] := by
  subst hb hn hs
  exact generate_effects app reply g hg hne

/-- C1, an instance: genre `rock`, bars `9007199254740993` (read as the double
9007199254740992), neural unchecked and the seed `0`, which is sent. -/
theorem generate_request_query_witness :
    requests (generate { sampleApp with barsInput := js "9007199254740993", seedInput := js "0" }
        (Reply.error (js "offline"))).2 =
      [{ method := js "GET",
         url := js "/api/generate?genre=rock&bars=9007199254740992&neural=false&seed=0",
         headers := [], body := none }] :=
  (generate_request_query
    { sampleApp with barsInput := js "9007199254740993", seedInput := js "0" }
    (Reply.error (js "offline")) (js "rock") (js "9007199254740993") (js "0") false rfl
    (by decide) rfl rfl rfl).trans (by decide)

/-- C1 as stated fails for the selected genre id `""`: the guard `!this.selectedGenre`
rejects the empty string, so `generate` issues no request at all instead of the GET the
claim describes.  It also fails for a genre id that is a lone surrogate (code unit D800):
the query carries U+FFFD (`%EF%BF%BD`) in its place, not the id. -/
theorem generate_empty_genre_id_no_request :
    requests (generate { sampleApp with selectedGenre := some (js "") }
        (Reply.json { success := true, filename := js "out.mid" })).2 = [] ∧
    requests (generate { sampleApp with selectedGenre := some (js "") }
        (Reply.json { success := true, filename := js "out.mid" })).2 ≠
      [{ method := js "GET", url := js "/api/generate?genre=&bars=8&neural=false",
         headers := [], body := none }] ∧
    requests (generate { sampleApp with selectedGenre := some [0xD800] }
        (Reply.json { success := true, filename := js "out.mid" })).2 =
      [{ method := js "GET", url := js "/api/generate?genre=%EF%BF%BD&bars=8&neural=false",
         headers := [], body := none }] ∧
    urlSearchParamsToString [(js "genre", [0xD800])] =
      urlSearchParamsToString [(js "genre", js "�")] := by
  decide

/-- C2 (as amended): `generate` does not validate the bars input.  For every bars input
`b` whose `parseInt` is `NaN`, zero or negative, a call with a non-empty genre selected
still issues exactly one `/api/generate` request, and its bars parameter is
`String(parseInt(b))`: the string `NaN`, the string `0`, or a string that starts with a
minus sign. -/
theorem generate_bars_not_validated (app : App) (reply : Reply GenerateResult)
    (g : JSString) (hg : app.selectedGenre = some g) (hne : g ≠ js "")
    (hb : parseInt app.barsInput = JSNumber.nan ∨
      (parseInt app.barsInput).nonPositive = true) :
    requests (generate app reply).2 =
      [{ method := js "GET",
         url := js "/api/generate?" ++ urlSearchParamsToString
           ([(js "genre", g), (js "bars", numberToString (parseInt app.barsInput)),
             (js "neural", boolToString app.useNeuralChecked)] ++
            if app.seedInput = js "" then [] else [(js "seed", app.seedInput)]),
         headers := [], body := none }] ∧
    (numberToString (parseInt app.barsInput) = js "NaN" ∨
      numberToString (parseInt app.barsInput) = js "0" ∨
      ∃ rest, numberToString (parseInt app.barsInput) = js "-" ++ rest) := by
  refine ⟨generate_effects app reply g hg hne, ?_⟩
  rcases hb with hnan | hnp
  · left
    rw [hnan]
    rfl
  · right
    cases hp : parseInt app.barsInput with
    | nan => rw [hp] at hnp; cases hnp
    | infinity negative =>
      rw [hp] at hnp
      have hneg : negative = true := hnp
      subst hneg
      right
      exact ⟨js "Infinity", by decide⟩
    | finite negative m =>
      rw [hp] at hnp
      by_cases hm : m = 0
      · left
        simp [numberToString, hm]
      · right
        have hneg : negative = true := by
          simpa [JSNumber.nonPositive, hm] using hnp
        subst hneg
        exact ⟨js (formatDecimal (shortestDecimal m)), by simp [numberToString, hm]⟩

/-- C2, an instance: the bars input `-1000000000000000000000` with the genre `rock`
selected is sent as `-1e+21` (its plus sign percent-encoded). -/
theorem generate_bars_not_validated_witness :
    requests (generate { sampleApp with barsInput := js "-1000000000000000000000" }
        (Reply.error (js "offline"))).2 =
      [{ method := js "GET",
         url := js "/api/generate?genre=rock&bars=-1e%2B21&neural=false",
         headers := [], body := none }] :=
  (generate_bars_not_validated { sampleApp with barsInput := js "-1000000000000000000000" }
    (Reply.error (js "offline")) (js "rock") rfl (by decide) (Or.inr (by decide))).1.trans
    (by decide)

/-- C2 as stated fails: with the genre `rock` selected, the bars input `0` (which parses
to 0) and the bars input `abc` (which does not parse) both lead to a `/api/generate`
request, with `bars=0` and `bars=NaN`. -/
theorem generate_nonpositive_bars_sends_request :
    parseInt (js "0") = JSNumber.finite false 0 ∧
    requests (generate { sampleApp with barsInput := js "0" }
        (Reply.json { success := false, filename := js "" })).2 =
      [{ method := js "GET", url := js "/api/generate?genre=rock&bars=0&neural=false",
         headers := [], body := none }] ∧
    parseInt (js "abc") = JSNumber.nan ∧
    requests (generate { sampleApp with barsInput := js "abc" }
        (Reply.json { success := false, filename := js "" })).2 =
      [{ method := js "GET", url := js "/api/generate?genre=rock&bars=NaN&neural=false",
         headers := [], body := none }] := by
  decide

/-- C9 (as amended): for every call of `generate` with a non-empty genre selected,
whatever the outcome (success true, success false or a failed request), on completion the
generate button is enabled and the progress container is hidden, and the download
container is displayed (`block`, otherwise `none`) if and only if the response reported
success = true, in which case the download link's href is `/output/` followed by the
returned filename. -/
theorem generate_completion (app : App) (reply : Reply GenerateResult) (g : JSString)
    (hg : app.selectedGenre = some g) (hne : g ≠ js "") :
    (generate app reply).1.generateBtnDisabled = false ∧
    (generate app reply).1.progressDisplay = js "none" ∧
    ((generate app reply).1.downloadDisplay = js "block" ↔
      ∃ filename, reply = Reply.json { success := true, filename := filename }) ∧
    ((generate app reply).1.downloadDisplay = js "block" ∨
      (generate app reply).1.downloadDisplay = js "none") ∧
    (∀ filename, reply = Reply.json { success := true, filename := filename } →
      (generate app reply).1.downloadHref = js "/output/" ++ filename) := by
  have hgt : truthy g = true := (truthy_eq_true_iff g).mpr hne
  cases reply with
  | json result =>
    obtain ⟨success, filename⟩ := result
    cases success <;>
      simp [generate, hg, selectedTruthy, hgt, none_ne_block]
  | error message =>
    simp [generate, hg, selectedTruthy, hgt, none_ne_block]

/-- C9, an instance: the sample page with `rock` selected and a successful response
naming `rock.mid`. -/
theorem generate_completion_witness :
    (generate sampleApp
        (Reply.json { success := true, filename := js "rock.mid" })).1.generateBtnDisabled
      = false ∧
    (generate sampleApp
        (Reply.json { success := true, filename := js "rock.mid" })).1.progressDisplay
      = js "none" ∧
    (generate sampleApp
        (Reply.json { success := true, filename := js "rock.mid" })).1.downloadHref
      = js "/output/" ++ js "rock.mid" :=
  have h := generate_completion sampleApp
    (Reply.json { success := true, filename := js "rock.mid" }) (js "rock") rfl (by decide)
  ⟨h.1, h.2.1, h.2.2.2.2 (js "rock.mid") rfl⟩

/-- C9 as stated fails for the selected genre id `""`: on a page that still shows the
download container of an earlier generation, `generate` returns at its guard without a
request, and the download container stays displayed although no response reported
success = true. -/
theorem generate_empty_genre_id_keeps_download :
    requests (generate
        { sampleApp with selectedGenre := some (js ""), downloadDisplay := js "block",
                         downloadHref := js "/output/rock.mid" }
        (Reply.json { success := false, filename := js "" })).2 = [] ∧
    (generate
        { sampleApp with selectedGenre := some (js ""), downloadDisplay := js "block",
                         downloadHref := js "/output/rock.mid" }
        (Reply.json { success := false, filename := js "" })).1.downloadDisplay
      = js "block" ∧
    ¬ ∃ filename,
        (Reply.json { success := false, filename := js "" } : Reply GenerateResult) =
          Reply.json { success := true, filename := filename } := by
  refine ⟨by decide, by decide, ?_⟩
  rintro ⟨filename, h⟩
  cases h

/-! ## C3: `search` -/

/-- C3 (as amended): for every search input that is empty or consists only of white
space, `search` renders the full genre catalog `this.genres` in its original order,
leaves the catalog unchanged and issues no request (it has no effect at all).  For every
other input whose trimmed query is well-formed UTF-16 it issues exactly one request, a GET
of `/api/search?q=` followed by the URL-encoded trimmed query, and when a list of ids is
returned it renders exactly that list in the returned order: the container's `innerHTML`
is the placeholder for an empty list and otherwise the item blocks of the returned ids, in
order.  For an input whose trimmed query has a lone surrogate, `encodeURIComponent`
throws, and `search` issues no request and leaves the page as it was. -/
theorem search_renders (app : App) (reply : Reply (List JSString)) :
    (isBlank app.searchInput = true →
      search app reply = (renderGenres app app.genres, []) ∧
      (search app reply).1.genreListHTML = genreListMarkup app app.genres ∧
      (search app reply).1.genres = app.genres ∧
      requests (search app reply).2 = []) ∧
    (isBlank app.searchInput = false →
      ∀ encoded, encodeURIComponent (jsTrim app.searchInput) = some encoded →
        requests (search app reply).2 =
          [{ method := js "GET", url := js "/api/search?q=" ++ encoded,
             headers := [], body := none }] ∧
        ∀ results, reply = Reply.json results →
          (search app reply).1 = renderGenres app results ∧
          (results = [] → (search app reply).1.genreListHTML =
            js "<div class=\"loading\">No se encontraron géneros</div>") ∧
          (results ≠ [] → (search app reply).1.genreListHTML =
            (results.map (genreItemMarkup app)).flatten)) ∧
    (isBlank app.searchInput = false →
      encodeURIComponent (jsTrim app.searchInput) = none →
      search app reply =
        (app, [Effect.consoleError (js "Error searching:") Thrown.uriError]) ∧
      requests (search app reply).2 = []) ∧
    (encodeURIComponent (jsTrim app.searchInput) = none ↔
      isWellFormed (jsTrim app.searchInput) = false) := by
  refine ⟨?_, ?_, ?_, ?_⟩
  · intro hblank
    have hq : truthy (jsTrim app.searchInput) = false :=
      (truthy_eq_false_iff _).mpr ((jsTrim_eq_empty_iff_isBlank _).mpr hblank)
    have hs : search app reply = (renderGenres app app.genres, []) := by
      simp [search, hq]
    rw [hs]
    exact ⟨rfl, rfl, rfl, rfl⟩
  · intro hnot encoded henc
    have hq : truthy (jsTrim app.searchInput) = true :=
      (truthy_eq_true_iff _).mpr (fun h => by simp [(jsTrim_eq_empty_iff_isBlank _).mp h] at hnot)
    cases reply with
    | json results =>
      have hs : search app (Reply.json results) =
          (renderGenres app results,
           [Effect.fetch
              ⟨js "GET", js "/api/search?q=" ++ encoded, [], none⟩]) := by
        simp [search, hq, henc]
      rw [hs]
      refine ⟨rfl, ?_⟩
      intro results2 heq
      cases heq
      refine ⟨rfl, ?_, ?_⟩
      · intro hnil
        subst hnil
        rfl
      · intro hne
        cases results with
        | nil => exact absurd rfl hne
        | cons a as => rfl
    | error message =>
      have hs : search app (Reply.error message) =
          (app,
           [Effect.fetch
              ⟨js "GET", js "/api/search?q=" ++ encoded, [], none⟩,
            Effect.consoleError (js "Error searching:") (Thrown.failure message)]) := by
        simp [search, hq, henc]
      rw [hs]
      refine ⟨rfl, ?_⟩
      intro results heq
      cases heq
  · intro hnot henc
    have hq : truthy (jsTrim app.searchInput) = true :=
      (truthy_eq_true_iff _).mpr (fun h => by simp [(jsTrim_eq_empty_iff_isBlank _).mp h] at hnot)
    have hs : search app reply =
        (app, [Effect.consoleError (js "Error searching:") Thrown.uriError]) := by
      simp [search, hq, henc]
    rw [hs]
    exact ⟨rfl, rfl⟩
  · unfold encodeURIComponent
    cases isWellFormed (jsTrim app.searchInput) <;> simp

/-- C3, two instances on the sample page: the input of a tab and two spaces renders the
catalog `rock, bebop` without a request; the input ` jazz & co ` asks for
`/api/search?q=jazz%20%26%20co` and renders the returned list `bebop`. -/
theorem search_renders_witness :
    ((search { sampleApp with searchInput := js "\t  " }
          (Reply.json [js "bebop"])).1.genreListHTML =
        genreListMarkup { sampleApp with searchInput := js "\t  " } [js "rock", js "bebop"] ∧
      requests (search { sampleApp with searchInput := js "\t  " }
          (Reply.json [js "bebop"])).2 = []) ∧
    (requests (search { sampleApp with searchInput := js " jazz & co " }
        (Reply.json [js "bebop"])).2 =
        [{ method := js "GET", url := js "/api/search?q=jazz%20%26%20co", headers := [],
           body := none }] ∧
      (search { sampleApp with searchInput := js " jazz & co " }
        (Reply.json [js "bebop"])).1.genreListHTML =
        js ("\n                <div class=\"genre-item \" data-genre=\"bebop\">" ++
          "\n                    <div class=\"genre-item-name\">bebop</div>" ++
          "\n                    <div class=\"genre-item-category\">Jazz</div>" ++
          "\n                </div>\n            ")) :=
  have h1 := (search_renders { sampleApp with searchInput := js "\t  " }
    (Reply.json [js "bebop"])).1 (by decide)
  have h2 := (search_renders { sampleApp with searchInput := js " jazz & co " }
    (Reply.json [js "bebop"])).2.1 (by decide) (js "jazz%20%26%20co") (by decide)
  ⟨⟨h1.2.1, h1.2.2.2⟩,
   ⟨h2.1, ((h2.2 [js "bebop"] rfl).2.2 (by decide)).trans (by decide)⟩⟩

/-- C3 as stated fails for an input that is not blank but holds a lone surrogate: for
`jazz` followed by the code unit D800, `encodeURIComponent` throws `URIError`, so `search`
issues no request; it only writes the error to the console and leaves the page as it
was. -/
theorem search_lone_surrogate_no_request :
    isBlank (js "jazz" ++ [0xD800]) = false ∧
    requests (search { sampleApp with searchInput := js "jazz" ++ [0xD800] }
        (Reply.json [js "bebop"])).2 = [] ∧
    search { sampleApp with searchInput := js "jazz" ++ [0xD800] }
        (Reply.json [js "bebop"]) =
      ({ sampleApp with searchInput := js "jazz" ++ [0xD800] },
       [Effect.consoleError (js "Error searching:") Thrown.uriError]) := by
  decide

/-! ## C5: `checkModelStatus` -/

/-- C5: after `checkModelStatus` completes, the 'use neural' checkbox is disabled if and
only if the `/api/model-status` response did not report exists = true (a failed request or
decoding included); when exists = true the status text is '✓ Modelo disponible: '
followed by exactly the model returned. -/
theorem checkModelStatus_checkbox (app : App) (reply : Reply ModelStatus) :
    ((checkModelStatus app reply).1.useNeuralDisabled = true ↔
      ¬ ∃ model, reply = Reply.json { «exists» := true, model := model }) ∧
    (∀ model, reply = Reply.json { «exists» := true, model := model } →
      (checkModelStatus app reply).1.useNeuralDisabled = false ∧
      (checkModelStatus app reply).1.modelStatusText =
        js "✓ Modelo disponible: " ++ model) := by
  cases reply with
  | json result =>
    obtain ⟨ex, model⟩ := result
    cases ex <;> simp [checkModelStatus]
  | error message =>
    simp [checkModelStatus]

/-- C5, an instance: the response `exists: true, model: composer_model` on the sample
page, whose checkbox starts disabled. -/
theorem checkModelStatus_checkbox_witness :
    (checkModelStatus sampleApp
        (Reply.json { «exists» := true, model := js "composer_model" })).1.useNeuralDisabled
      = false ∧
    (checkModelStatus sampleApp
        (Reply.json { «exists» := true, model := js "composer_model" })).1.modelStatusText
      = js "✓ Modelo disponible: " ++ js "composer_model" :=
  (checkModelStatus_checkbox sampleApp
    (Reply.json { «exists» := true, model := js "composer_model" })).2
    (js "composer_model") rfl

/-! ## C4, C7: `trainNeural` -/

theorem trainNeural_effects (app : App) (reply : Reply TrainResult) :
    requests (trainNeural app reply).2 =
      [{ method := js "POST", url := js "/api/train-neural",
         headers := [(js "Content-Type", js "application/json")],
         body := some (renderJsonObject
           [(js "directory", JsonValue.str (jsOr app.trainingDirInput (js "training_data"))),
            (js "epochs", jsonOfNumber (parseInt app.epochsInput)),
            (js "model_name",
              JsonValue.str (jsOr app.modelNameInput (js "composer_model")))]) }] := by
  have hdir : truthy (jsOr app.trainingDirInput (js "training_data")) = true := by
    rw [jsOr_eq]
    by_cases h : app.trainingDirInput = js ""
    · rw [if_pos h]; decide
    · rw [if_neg h]; exact (truthy_eq_true_iff _).mpr h
  cases reply with
  | json result =>
    cases hr : result.success <;>
      simp [trainNeural, hdir, hr, requests, showError, showSuccess]
  | error message =>
    simp [trainNeural, hdir, requests, showError]

/-- C4 (as amended): for every directory input `d`, epochs input `e` and model-name input
`m`, the request `trainNeural` sends is a POST to `/api/train-neural` whose JSON body has
exactly the keys directory, epochs and model_name, with directory = `d` when `d` is
non-empty and 'training_data' otherwise, model_name = `m` when `m` is non-empty and
'composer_model' otherwise, and epochs = `parseInt(e)` when that is a finite number and
`null` when it is `NaN`, `Infinity` or `-Infinity`. -/
theorem trainNeural_request_body (app : App) (reply : Reply TrainResult)
    (d e m : JSString)
    (hd : app.trainingDirInput = d) (he : app.epochsInput = e)
    (hm : app.modelNameInput = m) :
    requests (trainNeural app reply).2 =
      [{ method := js "POST", url := js "/api/train-neural",
         headers := [(js "Content-Type", js "application/json")],
         body := some (renderJsonObject
           [(js "directory", JsonValue.str (if d = js "" then js "training_data" else d)),
            (js "epochs",
              match parseInt e with
              | JSNumber.finite negative magnitude => JsonValue.num negative magnitude
              | JSNumber.nan => JsonValue.null
              | JSNumber.infinity _ => JsonValue.null),
            (js "model_name",
              JsonValue.str (if m = js "" then js "composer_model" else m))]) }] := by
  subst hd he hm
  rw [trainNeural_effects, jsOr_eq, jsOr_eq]
  cases parseInt app.epochsInput <;> rfl

/-- C4, an instance: directory `midi`, epochs `25`, model name left empty. -/
theorem trainNeural_request_body_witness :
    requests (trainNeural
        { sampleApp with trainingDirInput := js "midi", epochsInput := js "25" }
        (Reply.error (js "offline"))).2 =
      [{ method := js "POST", url := js "/api/train-neural",
         headers := [(js "Content-Type", js "application/json")],
         body := some (js
           "\x7b\"directory\":\"midi\",\"epochs\":25,\"model_name\":\"composer_model\"\x7d") }] :=
  (trainNeural_request_body
    { sampleApp with trainingDirInput := js "midi", epochsInput := js "25" }
    (Reply.error (js "offline")) (js "midi") (js "25") (js "") rfl rfl rfl).trans
    (by decide)

/-- C4 as stated fails for an epochs input that does not parse: for the input `abc`,
`parseInt` yields `NaN`, which is no finite number, and the JSON body sent carries
`"epochs":null`.  The same body is sent for an epochs input of 400 digits `9`, which
`parseInt` reads as `Infinity`. -/
theorem trainNeural_unparsable_epochs_null :
    parseInt (js "abc") = JSNumber.nan ∧
    requests (trainNeural { sampleApp with epochsInput := js "abc" }
        (Reply.error (js "offline"))).2 =
      [{ method := js "POST", url := js "/api/train-neural",
         headers := [(js "Content-Type", js "application/json")],
         body := some (js
           "\x7b\"directory\":\"training_data\",\"epochs\":null,\"model_name\":\"composer_model\"\x7d") }] ∧
    parseInt (js (String.mk (List.replicate 400 '9'))) = JSNumber.infinity false ∧
    requests (trainNeural
        { sampleApp with epochsInput := js (String.mk (List.replicate 400 '9')) }
        (Reply.error (js "offline"))).2 =
      [{ method := js "POST", url := js "/api/train-neural",
         headers := [(js "Content-Type", js "application/json")],
         body := some (js
           "\x7b\"directory\":\"training_data\",\"epochs\":null,\"model_name\":\"composer_model\"\x7d") }] := by
  refine ⟨by decide, by decide, by decide!, by decide!⟩

/-- C7 fails on the code: with the training directory input empty, `trainNeural` replaces
it by 'training_data', so the check under `// Validate` does not fire: the request is
sent, the error 'Por favor especifica un directorio de entrenamiento' is not shown, and
the status container is changed from `block` to hidden. -/
theorem trainNeural_empty_directory_sends :
    requests (trainNeural
        { sampleApp with trainingDirInput := js "", modelStatusDisplay := js "block" }
        (Reply.json { success := false, model := js "",
                      error := some (js "no training data found") })).2 =
      [{ method := js "POST", url := js "/api/train-neural",
         headers := [(js "Content-Type", js "application/json")],
         body := some (js
           "\x7b\"directory\":\"training_data\",\"epochs\":10,\"model_name\":\"composer_model\"\x7d") }] ∧
    alerts (trainNeural
        { sampleApp with trainingDirInput := js "", modelStatusDisplay := js "block" }
        (Reply.json { success := false, model := js "",
                      error := some (js "no training data found") })).2 =
      [js "❌ no training data found"] ∧
    (trainNeural
        { sampleApp with trainingDirInput := js "", modelStatusDisplay := js "block" }
        (Reply.json { success := false, model := js "",
                      error := some (js "no training data found") })).1.modelStatusDisplay
      = js "none" := by
  decide

end ComposerApp
